import Mathlib

/-!
Verification development for the laptop-price-predictor repository.

The feature-normalization layer (`src/components/data_transformation.py` and its
duplicate in `src/components/model_evaluation.py`), the model-acceptance decision
(`ModelEvaluation.evaluate_model`), and the prediction-row construction
(`src/pipline/prediction_pipeline.py`) are shallowly embedded here.

Conventions of the embedding:
* Python strings holding cell text are `List Char`; column names are `String`.
* A pandas `DataFrame` is a `Frame`: an ordered association list of named columns.
  Pandas semantics modelled: `df[c] = s` replaces a column in place when it exists
  and appends it at the end otherwise; `df.drop(columns=...)` returns a new frame
  and raises `KeyError` when a column is missing.
* Python exceptions are modelled with `Except PyErr`; float arithmetic on the
  parsed numeric fields is modelled exactly over `ℚ`.
-/

/-- Characters Python's `str.split()` (no argument) treats as separators. -/
def isSpace (c : Char) : Bool := c == ' ' || c == '\t' || c == '\n' || c == '\r'

/-- Whether `p` occurs at the very start of `l` (helper for substring search). -/
def leadsWith : List Char → List Char → Bool
  | [], _ => true
  | _ :: _, [] => false
  | p :: ps, c :: cs => p == c && leadsWith ps cs

/-- Python's substring test `pat in l`. -/
def containsSub (pat : List Char) : List Char → Bool
  | [] => pat.isEmpty
  | c :: r => leadsWith pat (c :: r) || containsSub pat r

/-- Worker for `removeAllSub`; the fuel argument only bounds the recursion depth
and any fuel of at least the list length gives the same result. -/
def removeAllGo (pat : List Char) : Nat → List Char → List Char
  | 0, l => l
  | _ + 1, [] => []
  | fuel + 1, c :: r =>
    if leadsWith pat (c :: r) && !pat.isEmpty then
      removeAllGo pat fuel (List.drop (pat.length - 1) r)
    else
      c :: removeAllGo pat fuel r

/-- Python's `l.replace(pat, '')` for a non-empty `pat`: delete every occurrence. -/
def removeAllSub (pat l : List Char) : List Char :=
  removeAllGo pat l.length l

/-- Python's `s.split(sep)` for a one-character separator: keeps empty parts. -/
def splitOnC (sep : Char) : List Char → List (List Char)
  | [] => [[]]
  | c :: r =>
    if c == sep then
      [] :: splitOnC sep r
    else
      match splitOnC sep r with
      | [] => [[c]]
      | p :: ps => (c :: p) :: ps

/-- Accumulator worker for `splitWs`; `cur` is the token being read, in order. -/
def splitWsGo (cur : List Char) : List Char → List (List Char)
  | [] => if cur.isEmpty then [] else [cur]
  | c :: r =>
    if isSpace c then
      if cur.isEmpty then splitWsGo [] r else cur :: splitWsGo [] r
    else
      splitWsGo (cur ++ [c]) r

/-- Python's `s.split()` (no argument): split on whitespace runs, drop empties. -/
def splitWs (l : List Char) : List (List Char) := splitWsGo [] l

/-- Python's `' '.join(ts)`. -/
def joinSpace : List (List Char) → List Char
  | [] => []
  | [t] => t
  | t :: ts => t ++ ' ' :: joinSpace ts

/-- Numeric value of a digit string (most significant digit first). -/
def digitsVal (l : List Char) : Nat := l.foldl (fun a c => 10 * a + (c.toNat - 48)) 0

/-- Whether every character is a decimal digit. -/
def allDigits (l : List Char) : Bool := l.all Char.isDigit

/-- Strip leading and trailing whitespace, as Python's numeric constructors do. -/
def trimWs (l : List Char) : List Char :=
  ((l.dropWhile isSpace).reverse.dropWhile isSpace).reverse

/-- Python's `int(s)` on a decimal string: optional sign, then digits. -/
def parsePyInt (l : List Char) : Option Int :=
  let t := trimWs l
  let core := if t.head? = some '+' ∨ t.head? = some '-' then t.drop 1 else t
  if core.isEmpty || !allDigits core then none
  else if t.head? = some '-' then some (-(digitsVal core : Int))
  else some (digitsVal core : Int)

/-- Fractional value of the digit string after a decimal point. -/
def fracQ (fr : List Char) : ℚ := (digitsVal fr : ℚ) / ((10 : ℚ) ^ fr.length)

/-- Unsigned part of Python's `float(s)`: `digits`, `digits.`, `digits.digits`, `.digits`. -/
def parseUFloat (l : List Char) : Option ℚ :=
  if l.head? = some '.' then
    let fr := l.drop 1
    if fr.isEmpty || !allDigits fr then none else some (fracQ fr)
  else
    let ip := l.takeWhile Char.isDigit
    let rest := l.dropWhile Char.isDigit
    if ip.isEmpty then none
    else if rest.isEmpty then some (digitsVal ip : ℚ)
    else if rest.head? = some '.' ∧ allDigits (rest.drop 1) then
      some ((digitsVal ip : ℚ) + fracQ (rest.drop 1))
    else none

/-- Python's `float(s)` on decimal notation (exponent forms do not occur in the data). -/
def parsePyFloat (l : List Char) : Option ℚ :=
  let t := trimWs l
  if t.head? = some '+' then parseUFloat (t.drop 1)
  else if t.head? = some '-' then (parseUFloat (t.drop 1)).map Neg.neg
  else parseUFloat t

/-- First match of the regex `\d+\.?\d*` in `l`, as used by
`re.search(r'(\d+\.?\d*)', part)` in `process_memory`. -/
def firstNumber (l : List Char) : Option ℚ :=
  let ds := l.dropWhile (fun c => !c.isDigit)
  if ds.isEmpty then none
  else
    let ip := ds.takeWhile Char.isDigit
    let rest := ds.dropWhile Char.isDigit
    if rest.head? = some '.' then
      some ((digitsVal ip : ℚ) + fracQ ((rest.drop 1).takeWhile Char.isDigit))
    else some (digitsVal ip : ℚ)

/-- A cell of a dataframe: raw text, an integer, or an exact rational
(standing for the Python float produced by the parsing rules). -/
inductive Val where
  | str (s : List Char)
  | intv (n : Int)
  | ratv (q : ℚ)
deriving DecidableEq, Repr

/-- Kinds of Python exception the embedded code can raise. -/
inductive PyErr where
  | typeError
  | valueError
  | keyError
  | indexError
deriving DecidableEq, Repr

/-- A dataframe: named columns in display order, each a list of cells. -/
abbrev Frame := List (String × List Val)

/-- The column names of a frame, in order. -/
def names (f : Frame) : List String := f.map Prod.fst

/-- Column lookup by name (`df[c]` on the reading side). -/
def getCol : Frame → String → Option (List Val)
  | [], _ => none
  | (n, c) :: r, m => if n = m then some c else getCol r m

/-- Column assignment `df[c] = s`: replace in place if present, else append. -/
def setCol : Frame → String → List Val → Frame
  | [], m, v => [(m, v)]
  | (n, c) :: r, m, v => if n = m then (n, v) :: r else (n, c) :: setCol r m v

/-- Remove the named columns, keeping the remaining order. -/
def removeCols (f : Frame) (ns : List String) : Frame :=
  f.filter (fun p => !(ns.contains p.1))

/-- Pandas `df.drop(columns=ns)`: `KeyError` when a requested column is absent. -/
def dropColsE (f : Frame) (ns : List String) : Except PyErr Frame :=
  if ns.all (fun n => (names f).contains n) then .ok (removeCols f ns) else .error .keyError

/-- Apply a cell transform to every cell of a column (`Series.apply`), propagating
the first raised exception. -/
def mapColE (g : Val → Except PyErr Val) : List Val → Except PyErr (List Val)
  | [] => .ok []
  | v :: r =>
    match g v with
    | .error e => .error e
    | .ok w =>
      match mapColE g r with
      | .error e => .error e
      | .ok ws => .ok (w :: ws)

/-- Apply a cell transform to the named column (`df[n].apply(g)` or the
`.str`/`astype` chains); `KeyError` when the column is missing. -/
def applyToCol (f : Frame) (n : String) (g : Val → Except PyErr Val) :
    Except PyErr (List Val) :=
  match getCol f n with
  | none => .error .keyError
  | some c => mapColE g c

/-- Cell rule of `clean_data` for `Ram`:
`df['Ram'].str.replace('GB', '').astype(int)`. -/
def ramClean : Val → Except PyErr Val
  | .str s =>
    match parsePyInt (removeAllSub ("GB".toList) s) with
    | some n => .ok (.intv n)
    | none => .error .valueError
  | _ => .error .typeError

/-- Cell rule of `clean_data` for `Weight`:
`df['Weight'].str.replace('kg', '').astype(float)`. -/
def weightClean : Val → Except PyErr Val
  | .str s =>
    match parsePyFloat (removeAllSub ("kg".toList) s) with
    | some q => .ok (.ratv q)
    | none => .error .valueError
  | _ => .error .typeError

/-- Cell rule `lambda x: 1 if 'Touchscreen' in x else 0` of `process_screen_resolution`. -/
def touchFlag : Val → Except PyErr Val
  | .str s => .ok (.intv (if containsSub ("Touchscreen".toList) s then 1 else 0))
  | _ => .error .typeError

/-- Cell rule `lambda x: 1 if 'IPS' in x else 0` of `process_screen_resolution`. -/
def ipsFlag : Val → Except PyErr Val
  | .str s => .ok (.intv (if containsSub ("IPS".toList) s then 1 else 0))
  | _ => .error .typeError

/-- Cell rule `lambda x: ' '.join(x.split()[0:3])` of `process_cpu`. -/
def cpuJoin : Val → Except PyErr Val
  | .str s => .ok (.str (joinSpace ((splitWs s).take 3)))
  | _ => .error .typeError

/-- The nested `categorize_cpu` of `process_cpu`; `text.split()[0]` on a
token-free string raises `IndexError`. -/
def categorize_cpu (text : List Char) : Except PyErr (List Char) :=
  if text = ("Intel Core i7".toList) ∨ text = ("Intel Core i5".toList) ∨
      text = ("Intel Core i3".toList) then
    .ok text
  else
    match splitWs text with
    | [] => .error .indexError
    | t :: _ =>
      if t = ("Intel".toList) then .ok ("Other Intel Processor".toList)
      else .ok ("AMD Processor".toList)

/-- `categorize_cpu` lifted to cells. -/
def categorizeCell : Val → Except PyErr Val
  | .str s =>
    match categorize_cpu s with
    | .ok t => .ok (.str t)
    | .error e => .error e
  | _ => .error .typeError

/-- Scanner of `extract_storage` over the `'+'`-split parts: first part containing
the storage token wins; the first regex number (0 when absent) is multiplied by
1000 when the part also contains `TB`. -/
def extractGo (storage_type : List Char) : List (List Char) → ℚ
  | [] => 0
  | part :: parts =>
    if containsSub storage_type part then
      (match firstNumber part with
       | some q => if containsSub ("TB".toList) part then q * 1000 else q
       | none => if containsSub ("TB".toList) part then 0 * 1000 else 0)
    else extractGo storage_type parts

/-- The nested `extract_storage(mem_str, storage_type)` of `process_memory`. -/
def extract_storage (mem_str storage_type : List Char) : ℚ :=
  extractGo storage_type (splitOnC '+' mem_str)

/-- Cell rule `lambda x: extract_storage(x, 'SSD')` of `process_memory`. -/
def ssdCell : Val → Except PyErr Val
  | .str s => .ok (.ratv (extract_storage s ("SSD".toList)))
  | _ => .error .typeError

/-- Cell rule `lambda x: extract_storage(x, 'HDD')` of `process_memory`. -/
def hddCell : Val → Except PyErr Val
  | .str s => .ok (.ratv (extract_storage s ("HDD".toList)))
  | _ => .error .typeError

/-- Cell rule `lambda x: x.split()[0]` of `process_gpu`; `IndexError` on a
token-free string. -/
def gpuCell : Val → Except PyErr Val
  | .str s =>
    match splitWs s with
    | [] => .error .indexError
    | t :: _ => .ok (.str t)
  | _ => .error .typeError

/-- The nested `simplify_os` of `process_os`. -/
def simplify_os (osStr : List Char) : List Char :=
  if osStr = ("macOS".toList) ∨ osStr = ("Mac OS X".toList) then "mac".toList
  else if containsSub ("Windows".toList) osStr then "windows".toList
  else "other".toList

/-- `simplify_os` lifted to cells. -/
def osCell : Val → Except PyErr Val
  | .str s => .ok (.str (simplify_os s))
  | _ => .error .typeError

deriving instance DecidableEq for Except

/-- Method `clean_data` (data_transformation.py lines 40-43; the same body at
model_evaluation.py lines 55-58): `df['Ram'] = df['Ram'].str.replace('GB', '').astype(int)`
and `df['Weight'] = df['Weight'].str.replace('kg', '').astype(float)`, then `return df`.
The pandas column assignments are in place, so the returned frame is also the state
of the caller's argument after the call. -/
def clean_data (f : Frame) : Except PyErr Frame :=
  match applyToCol f "Ram" ramClean with
  | .error e => .error e
  | .ok r =>
    let f1 := setCol f "Ram" r
    match applyToCol f1 "Weight" weightClean with
    | .error e => .error e
    | .ok w => .ok (setCol f1 "Weight" w)

/-- The state of the caller's argument after `process_screen_resolution` returns:
the in-place assignments of `Touchscreen` and `IPS` have happened, while
`df.drop(columns=['ScreenResolution', 'Inches'])` only builds the returned copy
and does not touch the caller's frame. -/
def process_screen_resolution_arg (f : Frame) : Except PyErr Frame :=
  match applyToCol f "ScreenResolution" touchFlag with
  | .error e => .error e
  | .ok t =>
    let f1 := setCol f "Touchscreen" t
    match applyToCol f1 "ScreenResolution" ipsFlag with
    | .error e => .error e
    | .ok i => .ok (setCol f1 "IPS" i)

/-- Method `process_screen_resolution` (data_transformation.py lines 46-50; the same
body at model_evaluation.py lines 61-65): derive `Touchscreen` and `IPS` flags, then
return the frame without `ScreenResolution` and `Inches`. -/
def process_screen_resolution (f : Frame) : Except PyErr Frame :=
  match process_screen_resolution_arg f with
  | .error e => .error e
  | .ok f2 => dropColsE f2 ["ScreenResolution", "Inches"]

/-- Method `process_cpu` (data_transformation.py lines 53-63; the same body at
model_evaluation.py lines 68-78): `cpu_name` is first the join of the first three
whitespace tokens of `Cpu`, then rebucketed through `categorize_cpu`; `Cpu` is dropped. -/
def process_cpu (f : Frame) : Except PyErr Frame :=
  match applyToCol f "Cpu" cpuJoin with
  | .error e => .error e
  | .ok c =>
    let f1 := setCol f "cpu_name" c
    match applyToCol f1 "cpu_name" categorizeCell with
    | .error e => .error e
    | .ok c2 => dropColsE (setCol f1 "cpu_name" c2) ["Cpu"]

/-- Method `process_memory` (data_transformation.py lines 66-78; the same body at
model_evaluation.py lines 81-93): `SSD` and `HDD` are extracted from `Memory` with
`extract_storage`; `Memory` is dropped. -/
def process_memory (f : Frame) : Except PyErr Frame :=
  match applyToCol f "Memory" ssdCell with
  | .error e => .error e
  | .ok s =>
    let f1 := setCol f "SSD" s
    match applyToCol f1 "Memory" hddCell with
    | .error e => .error e
    | .ok h => dropColsE (setCol f1 "HDD" h) ["Memory"]

/-- Method `process_gpu` (data_transformation.py lines 81-83; the same body at
model_evaluation.py lines 96-98): `gpu_brand = Gpu.split()[0]`; `Gpu` is dropped. -/
def process_gpu (f : Frame) : Except PyErr Frame :=
  match applyToCol f "Gpu" gpuCell with
  | .error e => .error e
  | .ok g => dropColsE (setCol f "gpu_brand" g) ["Gpu"]

/-- Method `process_os` (data_transformation.py lines 86-95; the same body at
model_evaluation.py lines 101-110): `os = simplify_os(OpSys)`; `OpSys` is dropped. -/
def process_os (f : Frame) : Except PyErr Frame :=
  match applyToCol f "OpSys" osCell with
  | .error e => .error e
  | .ok o => dropColsE (setCol f "os" o) ["OpSys"]

/-- Modelled from the spec: the `drop_columns` entry of the schema descriptor
(`config/schema.yaml` is not part of the sources given). The spec calls it the
configured identifier/index column; the evaluation path's `drop_id_column`
names the index column `Unnamed: 0` explicitly, so the schema list is taken
to be exactly that column. -/
def schema_drop_columns : List String := ["Unnamed: 0"]

/-- Modelled from the spec: `TARGET_COLUMN` of `src/constants` (not among the
sources given); the spec's raw-table interface names the target `Price`. -/
def TARGET_COLUMN : String := "Price"

/-- Method `DataTransformation.drop_id_column` (data_transformation.py lines 97-103):
`df.drop(drop_col, axis=1)` with the schema's `drop_columns`; raises when absent. -/
def drop_id_column (f : Frame) : Except PyErr Frame :=
  dropColsE f schema_drop_columns

/-- Method `ModelEvaluation.drop_id_column` (model_evaluation.py lines 112-117):
drops `Unnamed: 0` only if present, never raising. -/
def drop_id_column_eval (f : Frame) : Frame :=
  if (names f).contains "Unnamed: 0" then removeCols f ["Unnamed: 0"] else f

/-- The normalization path of `DataTransformation.initiate_data_transformation`
applied to one raw split (data_transformation.py lines 164-174): `clean_data`,
`process_screen_resolution`, `process_memory`, `process_cpu`, `process_gpu`,
`process_os`, `drop_id_column`, then the features are the frame without the
target column. -/
def dt_transform_features (f : Frame) : Except PyErr Frame :=
  match clean_data f with
  | .error e => .error e
  | .ok f1 =>
    match process_screen_resolution f1 with
    | .error e => .error e
    | .ok f2 =>
      match process_memory f2 with
      | .error e => .error e
      | .ok f3 =>
        match process_cpu f3 with
        | .error e => .error e
        | .ok f4 =>
          match process_gpu f4 with
          | .error e => .error e
          | .ok f5 =>
            match process_os f5 with
            | .error e => .error e
            | .ok f6 =>
              match drop_id_column f6 with
              | .error e => .error e
              | .ok f7 => dropColsE f7 [TARGET_COLUMN]

/-- The normalization path of `ModelEvaluation.evaluate_model`
(model_evaluation.py lines 130-141): the target column is separated first, then
`clean_data`, `process_screen_resolution`, `process_cpu`, `process_gpu`,
`process_memory`, `process_os`, `drop_id_column`. -/
def me_transform_features (f : Frame) : Except PyErr Frame :=
  match dropColsE f [TARGET_COLUMN] with
  | .error e => .error e
  | .ok x =>
    match clean_data x with
    | .error e => .error e
    | .ok x1 =>
      match process_screen_resolution x1 with
      | .error e => .error e
      | .ok x2 =>
        match process_cpu x2 with
        | .error e => .error e
        | .ok x3 =>
          match process_gpu x3 with
          | .error e => .error e
          | .ok x4 =>
            match process_memory x4 with
            | .error e => .error e
            | .ok x5 =>
              match process_os x5 with
              | .error e => .error e
              | .ok x6 => .ok (drop_id_column_eval x6)

/-- Dataclass `EvaluateModelResponse` (model_evaluation.py lines 16-21); scores are
modelled over `ℚ` and `best_model_r2_score` keeps the `None` of the source as
`Option`. -/
structure EvaluateModelResponse where
  trained_model_r2_score : ℚ
  best_model_r2_score : Option ℚ
  is_model_accepted : Bool
  difference : ℚ
deriving DecidableEq, Repr

/-- The decision core of `ModelEvaluation.evaluate_model` (model_evaluation.py lines
145-161): given the trained model's stored r2 score and the optional r2 score of the
incumbent model (absent when `get_best_model()` returns `None`), build the response
with `tmp_best_model_score = 0 if best_model_r2_score is None else best_model_r2_score`.
Loading the model and scoring it on the transformed test frame are external
collaborators and enter only through the two score arguments. -/
def evaluate_model (trained_model_r2_score : ℚ) (best_model_r2_score : Option ℚ) :
    EvaluateModelResponse :=
  let tmp_best_model_score : ℚ :=
    match best_model_r2_score with
    | none => 0
    | some b => b
  { trained_model_r2_score := trained_model_r2_score
    best_model_r2_score := best_model_r2_score
    is_model_accepted := decide (trained_model_r2_score > tmp_best_model_score)
    difference := trained_model_r2_score - tmp_best_model_score }

/-- Modelled from the spec: the `handle_unknown` modes of the sklearn
`OneHotEncoder` (the library itself is an external collaborator): `ignore`
encodes an unseen category as the all-zero indicator row, `errorUnknown`
raises. The source constructs the encoder with `handle_unknown='ignore'`
(data_transformation.py line 117). -/
inductive HandleUnknown where
  | ignore
  | errorUnknown
deriving DecidableEq, Repr

/-- Configuration of the one-hot encoder as built by the source. -/
structure OneHotEncoderCfg where
  handle_unknown : HandleUnknown
deriving DecidableEq, Repr

/-- Configuration of the `ColumnTransformer` built by
`get_data_transformer_object`: numeric columns for the scaler, categorical
columns for the one-hot encoder, `remainder='passthrough'`. -/
structure ColumnTransformerCfg where
  num_features : List String
  mm_columns : List String
  ohe : OneHotEncoderCfg
deriving DecidableEq, Repr

/-- Modelled from the spec: the `num_columns` entry of the schema descriptor
(`config/schema.yaml` is not among the sources given); the spec names the
standardized numeric columns `Ram`, `Weight`, `SSD`, `HDD`. -/
def schema_num_columns : List String := ["Ram", "Weight", "SSD", "HDD"]

/-- Modelled from the spec: the `one_hot_encoding_columns` entry of the schema
descriptor; the spec names the encoded categorical columns `Company`,
`TypeName`, `cpu_name`, `gpu_brand`, `os`. -/
def schema_one_hot_columns : List String :=
  ["Company", "TypeName", "cpu_name", "gpu_brand", "os"]

/-- Method `get_data_transformer_object` (data_transformation.py lines 106-138):
a `ColumnTransformer` over the schema's numeric and categorical columns with a
`StandardScaler`, a `OneHotEncoder(handle_unknown='ignore')` and passthrough
remainder. -/
def get_data_transformer_object : ColumnTransformerCfg :=
  { num_features := schema_num_columns
    mm_columns := schema_one_hot_columns
    ohe := { handle_unknown := .ignore } }

/-- Modelled from the spec: the categorical vocabulary observed at fit time, in
first-occurrence order. -/
def vocabOf (c : List Val) : List Val :=
  c.foldl (fun acc v => if v ∈ acc then acc else acc ++ [v]) []

/-- Modelled from the spec: the state of the fitted `ColumnTransformer` that the
claims depend on: the configuration, the per-categorical-column fit-time
vocabulary, and the fit-time order of the passthrough (remainder) columns. The
scaler's statistics are a per-column affine value map and do not affect column
identity, presence or order, so they are not carried. -/
structure FittedCT where
  cfg : ColumnTransformerCfg
  catVocab : List (String × List Val)
  remCols : List String
deriving DecidableEq, Repr

/-- Modelled from the spec: fitting the `ColumnTransformer` on a frame records
the categorical vocabularies and the remainder columns in fit-time order. -/
def fitCT (cfg : ColumnTransformerCfg) (f : Frame) : Except PyErr FittedCT :=
  if (cfg.num_features ++ cfg.mm_columns).all (fun n => (names f).contains n) then
    .ok { cfg := cfg
          catVocab := cfg.mm_columns.map (fun c => (c, vocabOf ((getCol f c).getD [])))
          remCols := (names f).filter
            (fun n => !(cfg.num_features.contains n) && !(cfg.mm_columns.contains n)) }
  else .error .keyError

/-- An output-column label of the fitted transformer: the source column name,
together with the vocabulary entry for an indicator column. -/
abbrev OutLabel := String × Option Val

/-- Modelled from the spec: the output column layout fixed at fit time — scaled
numeric columns in schema order, then each categorical column's indicator block
over its fit-time vocabulary, then the remainder columns in fit-time order. -/
def headerCT (t : FittedCT) : List OutLabel :=
  t.cfg.num_features.map (fun n => (n, (none : Option Val)))
    ++ (t.catVocab.map (fun p => p.2.map (fun v => (p.1, some v)))).flatten
    ++ t.remCols.map (fun n => (n, (none : Option Val)))

/-- Modelled from the spec: the indicator row the one-hot encoder produces for
one cell: the vocabulary-indexed 0/1 vector; an unseen category is all zeros
under `ignore` and an error under `errorUnknown`. -/
def oheEncodeVal (hu : HandleUnknown) (vocab : List Val) (v : Val) :
    Except PyErr (List Val) :=
  if v ∈ vocab then .ok (vocab.map (fun u => if u = v then Val.ratv 1 else Val.ratv 0))
  else
    match hu with
    | .ignore => .ok (vocab.map (fun _ => Val.ratv 0))
    | .errorUnknown => .error .valueError

/-- Modelled from the spec: the labelled indicator columns for all categorical
columns, by name lookup in the input frame. -/
def oheAll (hu : HandleUnknown) :
    List (String × List Val) → Frame → Except PyErr (List (OutLabel × List Val))
  | [], _ => .ok []
  | (c, vocab) :: rest, f =>
    let cells := (getCol f c).getD []
    if hu = HandleUnknown.errorUnknown ∧ ∃ x ∈ cells, ¬ x ∈ vocab then
      .error .valueError
    else
      match oheAll hu rest f with
      | .error e => .error e
      | .ok rs =>
        .ok ((vocab.map (fun v =>
          ((c, some v), cells.map (fun x => if x = v then Val.ratv 1 else Val.ratv 0)))) ++ rs)

/-- The input columns the fitted transformer needs at transform time. -/
def ctRequired (t : FittedCT) : List String :=
  t.cfg.num_features ++ t.catVocab.map Prod.fst ++ t.remCols

/-- Modelled from the spec: transforming a frame with the fitted transformer.
Columns are selected by name, so the input column order is irrelevant; the
output columns carry the fit-time labels of `headerCT`. Standardization of the
numeric columns is a per-column affine map from fit-time statistics and is
modelled as the identity on values, which the claims about column layout and
indicator blocks never inspect. -/
def transformCT (t : FittedCT) (f : Frame) :
    Except PyErr (List (OutLabel × List Val)) :=
  if (ctRequired t).all (fun n => (names f).contains n) then
    match oheAll t.cfg.ohe.handle_unknown t.catVocab f with
    | .error e => .error e
    | .ok ohePart =>
      .ok (t.cfg.num_features.map (fun n => ((n, (none : Option Val)), (getCol f n).getD []))
        ++ ohePart
        ++ t.remCols.map (fun n => ((n, (none : Option Val)), (getCol f n).getD [])))
  else .error .keyError

/-- Method `LaptopData.get_laptop_data_as_dict` (prediction_pipeline.py lines
54-77): the single prediction record as an ordered dict. -/
def get_laptop_data_as_dict (Company TypeName Ram Weight Touchscreen IPS
    cpu_name gpu_brand os SSD HDD : Val) : List (String × Val) :=
  [("Company", Company), ("TypeName", TypeName), ("Ram", Ram), ("Weight", Weight),
   ("Touchscreen", Touchscreen), ("IPS", IPS), ("cpu_name", cpu_name),
   ("gpu_brand", gpu_brand), ("os", os), ("SSD", SSD), ("HDD", HDD)]

/-- Method `LaptopData.get_laptop_input_data_frame` (prediction_pipeline.py lines
44-52): the dict wrapped into a single-row frame, keeping the dict's column order. -/
def get_laptop_input_data_frame (Company TypeName Ram Weight Touchscreen IPS
    cpu_name gpu_brand os SSD HDD : Val) : Frame :=
  (get_laptop_data_as_dict Company TypeName Ram Weight Touchscreen IPS
    cpu_name gpu_brand os SSD HDD).map (fun p => (p.1, [p.2]))

/-- A raw split as ingested from CSV: the index column, the raw feature columns
in the table's order, and the target `Price` (spec section 6; `Inches` is
present since `process_screen_resolution` drops it). The column contents are
the parameters, so a `mkRawFrame` quantified over them ranges over every raw
frame with this schema. -/
def mkRawFrame (idc company typename ram weight inches screen cpu memory gpu
    opsys price : List Val) : Frame :=
  [("Unnamed: 0", idc), ("Company", company), ("TypeName", typename),
   ("Ram", ram), ("Weight", weight), ("Inches", inches),
   ("ScreenResolution", screen), ("Cpu", cpu), ("Memory", memory),
   ("Gpu", gpu), ("OpSys", opsys), ("Price", price)]

/-- A concrete valid one-row raw split used as test input. -/
def sampleRawFrame : Frame :=
  mkRawFrame [.intv 0] [.str ("Apple".toList)] [.str ("Ultrabook".toList)]
    [.str ("8GB".toList)] [.str ("2kg".toList)] [.str ("13.3".toList)]
    [.str ("IPS Touchscreen".toList)] [.str ("Intel Core i5 2.3GHz".toList)]
    [.str ("256GB SSD".toList)] [.str ("Intel Iris".toList)]
    [.str ("macOS".toList)] [.ratv 71379]

/-- The memory rule in the specification's words: split on `'+'`, take the first
part containing the storage token, take the first decimal number in that part,
multiply by 1000 exactly when the part also contains `TB`, and 0 when no part
matches. -/
def extract_storage_spec (mem_str storage_type : List Char) : ℚ :=
  match (splitOnC '+' mem_str).find? (fun p => containsSub storage_type p) with
  | none => 0
  | some p => ((firstNumber p).getD 0) * (if containsSub ("TB".toList) p then 1000 else 1)

/-- The CPU rule in the specification's words: the candidate label is the join of
the first three whitespace tokens; one of the three named Intel Core labels is
kept, any other descriptor whose first token is `Intel` becomes
`Other Intel Processor`, everything else `AMD Processor`. -/
def cpu_bucket_spec (s : List Char) : List Char :=
  if joinSpace ((splitWs s).take 3) = ("Intel Core i7".toList) ∨
      joinSpace ((splitWs s).take 3) = ("Intel Core i5".toList) ∨
      joinSpace ((splitWs s).take 3) = ("Intel Core i3".toList) then
    joinSpace ((splitWs s).take 3)
  else if (splitWs s).head? = some ("Intel".toList) then "Other Intel Processor".toList
  else "AMD Processor".toList

/-- The two `apply` stages of `process_cpu` on one cell's text: the join of the
first three tokens, then `categorize_cpu`. -/
def process_cpu_text (s : List Char) : Except PyErr (List Char) :=
  categorize_cpu (joinSpace ((splitWs s).take 3))

/-- A one-row derived feature frame in the column order the training path
produces (Company, TypeName, Ram, Weight, Touchscreen, IPS, SSD, HDD,
cpu_name, gpu_brand, os), used as fit-time input. -/
def trainDerivedSample : Frame :=
  [("Company", [.str ("Apple".toList)]), ("TypeName", [.str ("Ultrabook".toList)]),
   ("Ram", [.intv 8]), ("Weight", [.ratv 2]), ("Touchscreen", [.intv 1]),
   ("IPS", [.intv 1]), ("SSD", [.ratv 256]), ("HDD", [.ratv 0]),
   ("cpu_name", [.str ("Intel Core i5".toList)]),
   ("gpu_brand", [.str ("Intel".toList)]), ("os", [.str ("mac".toList)])]

/-- The single prediction row for the same logical record, built by
`LaptopData.get_laptop_input_data_frame`; its column order differs from
`trainDerivedSample` (SSD and HDD come last). -/
def predInputSample : Frame :=
  get_laptop_input_data_frame (.str ("Apple".toList)) (.str ("Ultrabook".toList))
    (.intv 8) (.ratv 2) (.intv 1) (.intv 1) (.str ("Intel Core i5".toList))
    (.str ("Intel".toList)) (.str ("mac".toList)) (.ratv 256) (.ratv 0)

/-- The transformer state obtained by fitting the source's configuration on
`trainDerivedSample`. -/
def sampleFittedCT : FittedCT :=
  { cfg := get_data_transformer_object
    catVocab :=
      [("Company", [.str ("Apple".toList)]), ("TypeName", [.str ("Ultrabook".toList)]),
       ("cpu_name", [.str ("Intel Core i5".toList)]),
       ("gpu_brand", [.str ("Intel".toList)]), ("os", [.str ("mac".toList)])]
    remCols := ["Touchscreen", "IPS"] }

theorem extractGo_eq_spec (k : List Char) (parts : List (List Char)) :
    extractGo k parts = match parts.find? (fun p => containsSub k p) with
      | none => 0
      | some p => ((firstNumber p).getD 0) * (if containsSub ("TB".toList) p then 1000 else 1) := by
  induction parts with
  | nil => rfl
  | cons p ps ih =>
    by_cases h : containsSub k p = true
    · simp only [extractGo, List.find?, h, if_true]
      cases hf : firstNumber p <;>
        by_cases ht : containsSub ("TB".toList) p = true <;>
          simp [hf, ht]
    · have h' : containsSub k p = false := by revert h; cases containsSub k p <;> simp
      simp only [extractGo, List.find?, h', Bool.false_eq_true, if_false, ih]

/-- Claim C4: `process_memory` splits the descriptor on `'+'` and, for each storage
kind, returns from the first part containing the kind's token the first decimal
number in that part, times 1000 exactly when that part also contains `TB`, and 0
when no part contains the token; in particular `"256GB SSD +  1TB HDD"` gives
SSD=256 and HDD=1000, and `"512GB SSD"` gives SSD=512 and HDD=0. -/
theorem C4_memory_decomposition :
    (∀ mem k, extract_storage mem k = extract_storage_spec mem k) ∧
    extract_storage ("256GB SSD +  1TB HDD".toList) ("SSD".toList) = 256 ∧
    extract_storage ("256GB SSD +  1TB HDD".toList) ("HDD".toList) = 1000 ∧
    extract_storage ("512GB SSD".toList) ("SSD".toList) = 512 ∧
    extract_storage ("512GB SSD".toList) ("HDD".toList) = 0 := by
  refine ⟨fun mem k => ?_, by decide, ?_, by decide, by decide⟩
  · rw [extract_storage, extract_storage_spec, extractGo_eq_spec]
  · have h : extract_storage ("256GB SSD +  1TB HDD".toList) ("HDD".toList)
        = ((1 : ℕ) : ℚ) * 1000 := rfl
    rw [h]; norm_num

/-- Claim C3: `evaluate_model` accepts exactly when the trained score strictly
exceeds the incumbent score, with the incumbent score defaulting to 0 when no
incumbent exists, and the reported difference is the trained score minus that
possibly-defaulted baseline; in particular 0.85 against 0.80 is accepted with
difference 0.05, and with no incumbent acceptance holds exactly for a positive
trained score. -/
theorem C3_acceptance_rule :
    (∀ t b, ((evaluate_model t b).is_model_accepted = true ↔ t > b.getD 0) ∧
      (evaluate_model t b).difference = t - b.getD 0) ∧
    (evaluate_model (85/100) (some (80/100))).is_model_accepted = true ∧
    (evaluate_model (85/100) (some (80/100))).difference = 5/100 ∧
    (∀ t, ((evaluate_model t none).is_model_accepted = true ↔ t > 0)) := by
  refine ⟨?_, ?_, ?_, ?_⟩
  · intro t b; cases b <;> simp [evaluate_model]
  · simp [evaluate_model]; norm_num
  · simp [evaluate_model]; norm_num
  · intro t; simp [evaluate_model]

/-- Claim C6: `process_os` maps `macOS` and `Mac OS X` to `mac`, any string
containing `Windows` to `windows`, and everything else to `other`; in particular
`"Mac OS X"` gives `mac`, `"Windows 10"` gives `windows`, `"Chrome OS"` gives
`other`. -/
theorem C6_os_simplification :
    (∀ s, (s = ("macOS".toList) ∨ s = ("Mac OS X".toList)) → simplify_os s = "mac".toList) ∧
    (∀ s, containsSub ("Windows".toList) s = true → simplify_os s = "windows".toList) ∧
    (∀ s, ¬(s = ("macOS".toList) ∨ s = ("Mac OS X".toList)) →
      containsSub ("Windows".toList) s = false → simplify_os s = "other".toList) ∧
    simplify_os ("Mac OS X".toList) = "mac".toList ∧
    simplify_os ("Windows 10".toList) = "windows".toList ∧
    simplify_os ("Chrome OS".toList) = "other".toList := by
  refine ⟨?_, ?_, ?_, by decide, by decide, by decide⟩
  · intro s h
    unfold simplify_os
    rw [if_pos h]
  · intro s h
    by_cases hm : s = ("macOS".toList) ∨ s = ("Mac OS X".toList)
    · rcases hm with rfl | rfl <;> exact absurd h (by decide)
    · unfold simplify_os
      rw [if_neg hm, if_pos h]
  · intro s h1 h2
    unfold simplify_os
    rw [if_neg h1, if_neg (show ¬ containsSub ("Windows".toList) s = true by simpa using h2)]

/-- Witness for C6 at the concrete operating-system string `"Windows 10"`. -/
theorem C6_witness : simplify_os ("Windows 10".toList) = "windows".toList :=
  C6_os_simplification.2.1 ("Windows 10".toList) (by decide)

/-- Claim C10: a Cpu or Gpu field that is empty or whitespace-only makes the
normalization raise the untyped `IndexError` of `text.split()[0]` in
`categorize_cpu` and of `x.split()[0]` in `process_gpu`, not a typed parsing
error. -/
theorem C10_token_free_cpu_gpu :
    process_cpu_text [] = .error .indexError ∧
    process_cpu_text ("   ".toList) = .error .indexError ∧
    gpuCell (.str ("   ".toList)) = .error .indexError ∧
    process_cpu [("Cpu", [.str []])] = .error .indexError ∧
    process_gpu [("Gpu", [.str ("  ".toList)])] = .error .indexError := by decide

/-- Claim C2, evaluated at the failing input: a `Ram` value `"16"` without the
`GB` unit is not rejected — `str.replace('GB', '')` leaves it unchanged and
`astype(int)` parses it, so `clean_data` returns normally instead of raising a
typed `MalformedFieldError`, and the training run continues. -/
theorem C2_unitless_ram_accepted :
    ramClean (.str ("16".toList)) = .ok (.intv 16) ∧
    clean_data [("Ram", [.str ("16".toList)]), ("Weight", [.str ("2kg".toList)])] =
      .ok [("Ram", [.intv 16]), ("Weight", [.ratv 2])] := by decide

theorem splitWsGo_append_tok (t : List Char) (h : ∀ c ∈ t, isSpace c = false) :
    ∀ cur r, splitWsGo cur (t ++ r) = splitWsGo (cur ++ t) r := by
  induction t with
  | nil => intro cur r; simp
  | cons c cs ih =>
    intro cur r
    have hc : isSpace c = false := h c (List.mem_cons_self _ _)
    have hcs : ∀ x ∈ cs, isSpace x = false := fun x hx => h x (List.mem_cons_of_mem _ hx)
    show splitWsGo cur (c :: (cs ++ r)) = splitWsGo (cur ++ (c :: cs)) r
    simp only [splitWsGo, hc, Bool.false_eq_true, if_false]
    rw [ih hcs (cur ++ [c]) r]
    congr 1
    simp

theorem splitWsGo_flush (cur : List Char) (hcur : cur ≠ []) (r : List Char) :
    splitWsGo cur (' ' :: r) = cur :: splitWsGo [] r := by
  have h1 : cur.isEmpty = false := by
    cases cur with
    | nil => exact absurd rfl hcur
    | cons a l => rfl
  have hsp : isSpace ' ' = true := by decide
  simp [splitWsGo, hsp, h1]

theorem splitWsGo_last (cur : List Char) (hcur : cur ≠ []) :
    splitWsGo cur [] = [cur] := by
  have h1 : cur.isEmpty = false := by
    cases cur with
    | nil => exact absurd rfl hcur
    | cons a l => rfl
  simp [splitWsGo, h1]

theorem splitWs_joinSpace (ts : List (List Char))
    (h : ∀ t ∈ ts, t ≠ [] ∧ ∀ c ∈ t, isSpace c = false) :
    splitWs (joinSpace ts) = ts := by
  induction ts with
  | nil => rfl
  | cons t ts ih =>
    obtain ⟨ht0, htc⟩ := h t (List.mem_cons_self _ _)
    cases ts with
    | nil =>
      show splitWsGo [] t = [t]
      have h2 := splitWsGo_append_tok t htc [] []
      simp only [List.append_nil, List.nil_append] at h2
      rw [h2, splitWsGo_last t ht0]
    | cons t2 ts2 =>
      have hrest : ∀ x ∈ t2 :: ts2, x ≠ [] ∧ ∀ c ∈ x, isSpace c = false :=
        fun x hx => h x (List.mem_cons_of_mem _ hx)
      show splitWsGo [] (t ++ ' ' :: joinSpace (t2 :: ts2)) = t :: t2 :: ts2
      rw [splitWsGo_append_tok t htc [] _, List.nil_append, splitWsGo_flush t ht0]
      rw [show splitWsGo [] (joinSpace (t2 :: ts2)) = t2 :: ts2 from ih hrest]

theorem splitWsGo_good (l : List Char) :
    ∀ cur, (∀ c ∈ cur, isSpace c = false) →
      ∀ t ∈ splitWsGo cur l, t ≠ [] ∧ ∀ c ∈ t, isSpace c = false := by
  induction l with
  | nil =>
    intro cur hcur t ht
    by_cases hc : cur.isEmpty = true
    · simp [splitWsGo, hc] at ht
    · have hc' : cur.isEmpty = false := by
        revert hc; cases cur.isEmpty <;> simp
      simp [splitWsGo, hc'] at ht
      subst ht
      exact ⟨by simpa [List.isEmpty_iff] using hc, hcur⟩
  | cons c r ih =>
    intro cur hcur t ht
    by_cases hsp : isSpace c = true
    · by_cases hc : cur.isEmpty = true
      · have hnil : cur = [] := by simpa [List.isEmpty_iff] using hc
        subst hnil
        simp [splitWsGo, hsp] at ht
        exact ih [] (by simp) t ht
      · have hc' : cur.isEmpty = false := by
          revert hc; cases cur.isEmpty <;> simp
        simp [splitWsGo, hsp, hc'] at ht
        rcases ht with rfl | ht
        · exact ⟨by simpa [List.isEmpty_iff] using hc, hcur⟩
        · exact ih [] (by simp) t ht
    · have hsp' : isSpace c = false := by
        revert hsp; cases isSpace c <;> simp
      simp only [splitWsGo, hsp', Bool.false_eq_true, if_false] at ht
      refine ih (cur ++ [c]) ?_ t ht
      intro x hx
      rcases List.mem_append.1 hx with hx | hx
      · exact hcur x hx
      · have hxc : x = c := by simpa using hx
        subst hxc
        exact hsp'

/-- Claim C5: for a CPU descriptor with at least one token, `process_cpu` keeps
the join of the first three tokens when it is exactly Intel Core i7/i5/i3,
otherwise buckets to `Other Intel Processor` when the first token is `Intel`
and to `AMD Processor` otherwise; with the three concrete examples. -/
theorem C5_cpu_bucketing :
    (∀ s, splitWs s ≠ [] → process_cpu_text s = .ok (cpu_bucket_spec s)) ∧
    process_cpu_text ("Intel Core i7 7700HQ 2.8GHz".toList) = .ok ("Intel Core i7".toList) ∧
    process_cpu_text ("Intel Celeron Dual Core N3060".toList) = .ok ("Other Intel Processor".toList) ∧
    process_cpu_text ("AMD A9-Series 9420".toList) = .ok ("AMD Processor".toList) := by
  refine ⟨?_, by decide, by decide, by decide⟩
  intro s hne
  have hgood : ∀ t ∈ splitWs s, t ≠ [] ∧ ∀ c ∈ t, isSpace c = false :=
    splitWsGo_good s [] (by simp)
  cases htok : splitWs s with
  | nil => exact absurd htok hne
  | cons t0 rest =>
    unfold process_cpu_text cpu_bucket_spec categorize_cpu
    by_cases h3 : joinSpace ((splitWs s).take 3) = ("Intel Core i7".toList) ∨
        joinSpace ((splitWs s).take 3) = ("Intel Core i5".toList) ∨
        joinSpace ((splitWs s).take 3) = ("Intel Core i3".toList)
    · rw [if_pos h3, if_pos h3]
    · rw [if_neg h3, if_neg h3]
      have hsub : ∀ t ∈ (splitWs s).take 3, t ≠ [] ∧ ∀ c ∈ t, isSpace c = false :=
        fun t ht => hgood t (List.take_subset 3 (splitWs s) ht)
      have hrt : splitWs (joinSpace ((splitWs s).take 3)) = (splitWs s).take 3 :=
        splitWs_joinSpace _ hsub
      rw [hrt, htok, List.take_succ_cons]
      by_cases hI : t0 = ("Intel".toList)
      · simp [hI]
      · rw [if_neg (show ¬((t0 :: rest).head? = some ("Intel".toList)) by simpa using hI)]
        show (if t0 = ("Intel".toList) then Except.ok ("Other Intel Processor".toList)
          else Except.ok ("AMD Processor".toList)) = Except.ok ("AMD Processor".toList)
        rw [if_neg hI]

/-- Witness for C5 at a concrete CPU descriptor with at least one token. -/
theorem C5_witness :
    process_cpu_text ("Intel Pentium N4200".toList) =
      .ok (cpu_bucket_spec ("Intel Pentium N4200".toList)) :=
  C5_cpu_bucketing.1 ("Intel Pentium N4200".toList) (by decide)

theorem oheAll_ignore_ok (cv : List (String × List Val)) (f : Frame) :
    ∃ rs, oheAll HandleUnknown.ignore cv f = .ok rs := by
  induction cv with
  | nil => exact ⟨[], rfl⟩
  | cons p rest ih =>
    obtain ⟨c, vocab⟩ := p
    obtain ⟨rs, hrs⟩ := ih
    simp only [oheAll]
    rw [if_neg (by simp), hrs]
    exact ⟨_, rfl⟩

/-- Claim C7: with the encoder configuration the source fixes
(`handle_unknown='ignore'`), a category unseen at fit time is encoded as the
all-zero indicator vector, and transforming a frame through a pipeline fitted
with the source's configuration succeeds whenever the required columns are
present — in particular no unseen category ever raises. -/
theorem C7_unseen_category_zero :
    (∀ vocab v, ¬ v ∈ vocab →
      oheEncodeVal (get_data_transformer_object.ohe.handle_unknown) vocab v =
        .ok (vocab.map (fun _ => Val.ratv 0))) ∧
    (∀ g t, fitCT get_data_transformer_object g = .ok t →
      ∀ f, (ctRequired t).all (fun n => (names f).contains n) = true →
        ∃ out, transformCT t f = .ok out) := by
  constructor
  · intro vocab v h
    simp [oheEncodeVal, get_data_transformer_object, h]
  · intro g t hfit f hreq
    have hcfg : t.cfg = get_data_transformer_object := by
      unfold fitCT at hfit
      split at hfit
      · injection hfit with h1
        rw [← h1]
      · exact absurd hfit (by simp)
    have hu : t.cfg.ohe.handle_unknown = HandleUnknown.ignore := by rw [hcfg]; rfl
    obtain ⟨rs, hrs⟩ := oheAll_ignore_ok t.catVocab f
    unfold transformCT
    rw [if_pos hreq, hu, hrs]
    exact ⟨_, rfl⟩

theorem C7_witness :
    oheEncodeVal (get_data_transformer_object.ohe.handle_unknown)
        [Val.str ("Apple".toList)] (Val.str ("Lenovo".toList)) =
      .ok [Val.ratv 0] ∧
    (∃ out, transformCT sampleFittedCT predInputSample = .ok out) := by
  constructor
  · exact C7_unseen_category_zero.1 _ _ (by decide)
  · exact C7_unseen_category_zero.2 trainDerivedSample sampleFittedCT (by decide)
      predInputSample (by decide)

theorem oheAll_labels (hu : HandleUnknown) (cv : List (String × List Val)) (f : Frame) :
    ∀ rs, oheAll hu cv f = .ok rs →
      rs.map Prod.fst = (cv.map (fun p => p.2.map (fun v => (p.1, some v)))).flatten := by
  induction cv with
  | nil =>
    intro rs h
    injection h with h1
    subst h1
    rfl
  | cons p rest ih =>
    obtain ⟨c, vocab⟩ := p
    intro rs h
    simp only [oheAll] at h
    by_cases hc : hu = HandleUnknown.errorUnknown ∧ ∃ x ∈ (getCol f c).getD [], ¬ x ∈ vocab
    · rw [if_pos hc] at h
      cases h
    · rw [if_neg hc] at h
      cases hrec : oheAll hu rest f with
      | error e => rw [hrec] at h; cases h
      | ok rs2 =>
        rw [hrec] at h
        injection h with h1
        subst h1
        simp [List.map_append, List.map_map, ih rs2 hrec]

/-- Claim C9: the output column layout of the fitted transformer is fixed at
fit time (`headerCT`) and reproduced at every transform call, also when the
input columns arrive in a different order than at fit time; in particular the
prediction row built by `LaptopData.get_laptop_input_data_frame`, whose column
order differs from the training frame's, transforms to the same output column
layout as the training frame. -/
theorem C9_column_order :
    (∀ t f out, transformCT t f = .ok out → out.map Prod.fst = headerCT t) ∧
    fitCT get_data_transformer_object trainDerivedSample = .ok sampleFittedCT ∧
    (transformCT sampleFittedCT trainDerivedSample).toOption.map (fun o => o.map Prod.fst) =
      some (headerCT sampleFittedCT) ∧
    (transformCT sampleFittedCT predInputSample).toOption.map (fun o => o.map Prod.fst) =
      some (headerCT sampleFittedCT) ∧
    names predInputSample ≠ names trainDerivedSample := by
  refine ⟨?_, by decide, by decide, by decide, by decide⟩
  intro t f out h
  unfold transformCT at h
  by_cases hcnd : ((ctRequired t).all fun n => (names f).contains n) = true
  · rw [if_pos hcnd] at h
    cases hrec : oheAll t.cfg.ohe.handle_unknown t.catVocab f with
    | error e => rw [hrec] at h; cases h
    | ok rs =>
      rw [hrec] at h
      injection h with h1
      subst h1
      unfold headerCT
      simp only [List.map_append, List.map_map, oheAll_labels _ _ _ _ hrec]
      rfl
  · rw [if_neg hcnd] at h
    cases h

/-- Witness for C9: the fit-time header is reproduced on the concrete
prediction row, whose input column order differs from the fit frame's. -/
theorem C9_witness :
    ([(("Ram", (none : Option Val)), [Val.intv 8]),
      (("Weight", none), [Val.ratv 2]),
      (("SSD", none), [Val.ratv 256]),
      (("HDD", none), [Val.ratv 0]),
      (("Company", some (Val.str ("Apple".toList))), [Val.ratv 1]),
      (("TypeName", some (Val.str ("Ultrabook".toList))), [Val.ratv 1]),
      (("cpu_name", some (Val.str ("Intel Core i5".toList))), [Val.ratv 1]),
      (("gpu_brand", some (Val.str ("Intel".toList))), [Val.ratv 1]),
      (("os", some (Val.str ("mac".toList))), [Val.ratv 1]),
      (("Touchscreen", none), [Val.intv 1]),
      (("IPS", none), [Val.intv 1])] : List (OutLabel × List Val)).map Prod.fst
      = headerCT sampleFittedCT :=
  C9_column_order.1 sampleFittedCT predInputSample _ (by decide)

theorem getCol_setCol_ne (f : Frame) (n m : String) (v : List Val) (h : n ≠ m) :
    getCol (setCol f n v) m = getCol f m := by
  induction f with
  | nil => simp [setCol, getCol, h]
  | cons p r ih =>
    obtain ⟨k, c⟩ := p
    by_cases hk : k = n
    · subst hk
      have hkm : k ≠ m := h
      simp [setCol, getCol, hkm]
    · by_cases hm : k = m
      · subst hm
        simp [setCol, getCol, hk]
      · simp [setCol, getCol, hk, hm, ih]

theorem getCol_removeCols (f : Frame) (ns : List String) (m : String) (h : ¬ m ∈ ns) :
    getCol (removeCols f ns) m = getCol f m := by
  induction f with
  | nil => rfl
  | cons p r ih =>
    obtain ⟨k, c⟩ := p
    by_cases hk : k ∈ ns
    · have hkm : k ≠ m := fun e => h (e ▸ hk)
      have e1 : removeCols ((k, c) :: r) ns = removeCols r ns := by
        simp [removeCols, List.filter_cons, hk]
      rw [e1, ih]
      simp [getCol, hkm]
    · have e1 : removeCols ((k, c) :: r) ns = (k, c) :: removeCols r ns := by
        simp [removeCols, List.filter_cons, hk]
      by_cases hm : k = m
      · subst hm
        rw [e1]
        simp [getCol]
      · rw [e1]
        simp [getCol, hm, ih]

theorem names_setCol_not_mem (f : Frame) (n : String) (v : List Val)
    (h : ¬ n ∈ names f) :
    names (setCol f n v) = names f ++ [n] := by
  induction f with
  | nil => rfl
  | cons p r ih =>
    obtain ⟨k, c⟩ := p
    have hk : k ≠ n := by
      intro e
      exact h (by simp [names, e])
    have hr : ¬ n ∈ names r := by
      intro hm
      exact h (by simp [names] at hm ⊢; exact Or.inr hm)
    have hk' : ¬ k = n := hk
    have e1 : setCol ((k, c) :: r) n v = (k, c) :: setCol r n v := by
      simp [setCol, hk']
    rw [e1]
    show k :: names (setCol r n v) = (k :: names r) ++ [n]
    rw [ih hr]
    rfl

/-- Claim C8, amended: the per-step transforms are deterministic in the input
frame, but they are not free of caller-visible effects: the derived-column
assignments happen in place on the caller's frame, so after
`process_screen_resolution` returns, the caller's frame (`..._arg`) holds the
new `Touchscreen` and `IPS` columns — with `ScreenResolution` still present,
since only the returned copy drops it — and its column list has grown. -/
theorem C8_mutation : ∀ f g, process_screen_resolution f = .ok g →
    ∃ p, process_screen_resolution_arg f = .ok p ∧
      getCol p "ScreenResolution" = getCol f "ScreenResolution" ∧
      getCol p "Touchscreen" = getCol g "Touchscreen" ∧
      getCol p "IPS" = getCol g "IPS" ∧
      (¬ "Touchscreen" ∈ names f → ¬ "IPS" ∈ names f →
        names p = names f ++ ["Touchscreen", "IPS"]) := by
  intro f g h
  cases h1 : applyToCol f "ScreenResolution" touchFlag with
  | error e =>
    have harg : process_screen_resolution_arg f = .error e := by
      unfold process_screen_resolution_arg
      rw [h1]
    unfold process_screen_resolution at h
    rw [harg] at h
    cases h
  | ok tcol =>
    cases h2 : applyToCol (setCol f "Touchscreen" tcol) "ScreenResolution" ipsFlag with
    | error e =>
      have harg : process_screen_resolution_arg f = .error e := by
        unfold process_screen_resolution_arg
        rw [h1]
        show (match applyToCol (setCol f "Touchscreen" tcol) "ScreenResolution" ipsFlag with
          | .error e => (Except.error e : Except PyErr Frame)
          | .ok i => .ok (setCol (setCol f "Touchscreen" tcol) "IPS" i)) = .error e
        rw [h2]
      unfold process_screen_resolution at h
      rw [harg] at h
      cases h
    | ok icol =>
      have harg : process_screen_resolution_arg f =
          .ok (setCol (setCol f "Touchscreen" tcol) "IPS" icol) := by
        unfold process_screen_resolution_arg
        rw [h1]
        show (match applyToCol (setCol f "Touchscreen" tcol) "ScreenResolution" ipsFlag with
          | .error e => (Except.error e : Except PyErr Frame)
          | .ok i => .ok (setCol (setCol f "Touchscreen" tcol) "IPS" i)) =
          .ok (setCol (setCol f "Touchscreen" tcol) "IPS" icol)
        rw [h2]
      unfold process_screen_resolution at h
      rw [harg] at h
      change dropColsE (setCol (setCol f "Touchscreen" tcol) "IPS" icol)
        ["ScreenResolution", "Inches"] = Except.ok g at h
      unfold dropColsE at h
      by_cases hc : ((["ScreenResolution", "Inches"] : List String).all
          (fun n => (names (setCol (setCol f "Touchscreen" tcol) "IPS" icol)).contains n)) = true
      · rw [if_pos hc] at h
        injection h with hg
        subst hg
        refine ⟨_, harg, ?_, ?_, ?_, ?_⟩
        · rw [getCol_setCol_ne _ _ _ _ (by decide), getCol_setCol_ne _ _ _ _ (by decide)]
        · rw [getCol_removeCols _ _ _ (by decide)]
        · rw [getCol_removeCols _ _ _ (by decide)]
        · intro hT hI
          have hXT : names (setCol f "Touchscreen" tcol) = names f ++ ["Touchscreen"] :=
            names_setCol_not_mem f _ _ hT
          have hIX : ¬ "IPS" ∈ names (setCol f "Touchscreen" tcol) := by
            rw [hXT]
            simp [hI]
          rw [names_setCol_not_mem _ _ _ hIX, hXT, List.append_assoc]
          rfl
      · rw [if_neg hc] at h
        cases h

/-- Counterexample to claim C8 as stated: the transforms do have side effects on
the caller's frame. `clean_data` mutates `Ram` and `Weight` in place and hands
the caller's own frame back, and the screen step's in-place assignments leave
the caller's frame with the two new flag columns (and `ScreenResolution` still
present), different from the frame the caller passed in. -/
theorem C8_counterexample :
    clean_data [("Ram", [Val.str ("8GB".toList)]), ("Weight", [Val.str ("2kg".toList)])] =
      .ok [("Ram", [Val.intv 8]), ("Weight", [Val.ratv 2])] ∧
    ([("Ram", [Val.intv 8]), ("Weight", [Val.ratv 2])] : Frame) ≠
      [("Ram", [Val.str ("8GB".toList)]), ("Weight", [Val.str ("2kg".toList)])] ∧
    process_screen_resolution_arg
        [("ScreenResolution", [Val.str ("IPS Panel".toList)]),
         ("Inches", [Val.str ("13.3".toList)])] =
      .ok [("ScreenResolution", [Val.str ("IPS Panel".toList)]),
           ("Inches", [Val.str ("13.3".toList)]),
           ("Touchscreen", [Val.intv 0]), ("IPS", [Val.intv 1])] ∧
    ([("ScreenResolution", [Val.str ("IPS Panel".toList)]),
      ("Inches", [Val.str ("13.3".toList)]),
      ("Touchscreen", [Val.intv 0]), ("IPS", [Val.intv 1])] : Frame) ≠
      [("ScreenResolution", [Val.str ("IPS Panel".toList)]),
       ("Inches", [Val.str ("13.3".toList)])] := by decide

/-- Witness for C8 at a concrete frame: the caller's frame after the screen step
holds the derived columns next to the still-present `ScreenResolution`. -/
theorem C8_witness :
    ∃ p, process_screen_resolution_arg
        [("ScreenResolution", [Val.str ("IPS".toList)]), ("Inches", [Val.str ("13".toList)])] =
        .ok p ∧
      getCol p "ScreenResolution" =
        getCol [("ScreenResolution", [Val.str ("IPS".toList)]), ("Inches", [Val.str ("13".toList)])]
          "ScreenResolution" ∧
      getCol p "Touchscreen" =
        getCol [("Touchscreen", [Val.intv 0]), ("IPS", [Val.intv 1])] "Touchscreen" ∧
      getCol p "IPS" = getCol [("Touchscreen", [Val.intv 0]), ("IPS", [Val.intv 1])] "IPS" ∧
      (¬ "Touchscreen" ∈ names [("ScreenResolution", [Val.str ("IPS".toList)]),
          ("Inches", [Val.str ("13".toList)])] →
        ¬ "IPS" ∈ names [("ScreenResolution", [Val.str ("IPS".toList)]),
          ("Inches", [Val.str ("13".toList)])] →
        names p = names [("ScreenResolution", [Val.str ("IPS".toList)]),
          ("Inches", [Val.str ("13".toList)])] ++ ["Touchscreen", "IPS"]) :=
  C8_mutation
    [("ScreenResolution", [Val.str ("IPS".toList)]), ("Inches", [Val.str ("13".toList)])]
    [("Touchscreen", [Val.intv 0]), ("IPS", [Val.intv 1])] (by decide)

/-- Claim C1, amended: on every valid raw test frame (the raw schema columns,
with every field parsing successfully), the training-path normalization of
`DataTransformation.initiate_data_transformation` and the evaluation-path
normalization of `ModelEvaluation.evaluate_model` both succeed and produce
feature batches with the same column set and identical values for every column,
but not with the same column order: the training path puts `SSD`, `HDD` before
`cpu_name`, `gpu_brand` while the evaluation path puts them after, because the
two call sites apply `process_memory` and `process_cpu`/`process_gpu` in
different orders and pandas appends newly assigned columns at the end. -/
theorem C1_values_agree_order_differs
    (idc company typename ram weight inches screen cpu memory gpu opsys price : List Val)
    (ramC wtC tC iC sC hC candC cpuC gC oC : List Val)
    (hRam : mapColE ramClean ram = .ok ramC)
    (hWt : mapColE weightClean weight = .ok wtC)
    (hT : mapColE touchFlag screen = .ok tC)
    (hI : mapColE ipsFlag screen = .ok iC)
    (hS : mapColE ssdCell memory = .ok sC)
    (hH : mapColE hddCell memory = .ok hC)
    (hCand : mapColE cpuJoin cpu = .ok candC)
    (hCat : mapColE categorizeCell candC = .ok cpuC)
    (hG : mapColE gpuCell gpu = .ok gC)
    (hO : mapColE osCell opsys = .ok oC) :
    dt_transform_features
        (mkRawFrame idc company typename ram weight inches screen cpu memory gpu opsys price) =
      .ok [("Company", company), ("TypeName", typename), ("Ram", ramC), ("Weight", wtC),
           ("Touchscreen", tC), ("IPS", iC), ("SSD", sC), ("HDD", hC),
           ("cpu_name", cpuC), ("gpu_brand", gC), ("os", oC)] ∧
    me_transform_features
        (mkRawFrame idc company typename ram weight inches screen cpu memory gpu opsys price) =
      .ok [("Company", company), ("TypeName", typename), ("Ram", ramC), ("Weight", wtC),
           ("Touchscreen", tC), ("IPS", iC), ("cpu_name", cpuC), ("gpu_brand", gC),
           ("SSD", sC), ("HDD", hC), ("os", oC)] ∧
    (∀ n ∈ (["Company", "TypeName", "Ram", "Weight", "Touchscreen", "IPS",
             "SSD", "HDD", "cpu_name", "gpu_brand", "os"] : List String),
      getCol [("Company", company), ("TypeName", typename), ("Ram", ramC), ("Weight", wtC),
              ("Touchscreen", tC), ("IPS", iC), ("SSD", sC), ("HDD", hC),
              ("cpu_name", cpuC), ("gpu_brand", gC), ("os", oC)] n =
      getCol [("Company", company), ("TypeName", typename), ("Ram", ramC), ("Weight", wtC),
              ("Touchscreen", tC), ("IPS", iC), ("cpu_name", cpuC), ("gpu_brand", gC),
              ("SSD", sC), ("HDD", hC), ("os", oC)] n) ∧
    (names [("Company", company), ("TypeName", typename), ("Ram", ramC), ("Weight", wtC),
            ("Touchscreen", tC), ("IPS", iC), ("SSD", sC), ("HDD", hC),
            ("cpu_name", cpuC), ("gpu_brand", gC), ("os", oC)]).Perm
      (names [("Company", company), ("TypeName", typename), ("Ram", ramC), ("Weight", wtC),
              ("Touchscreen", tC), ("IPS", iC), ("cpu_name", cpuC), ("gpu_brand", gC),
              ("SSD", sC), ("HDD", hC), ("os", oC)]) ∧
    names [("Company", company), ("TypeName", typename), ("Ram", ramC), ("Weight", wtC),
           ("Touchscreen", tC), ("IPS", iC), ("SSD", sC), ("HDD", hC),
           ("cpu_name", cpuC), ("gpu_brand", gC), ("os", oC)] ≠
      names [("Company", company), ("TypeName", typename), ("Ram", ramC), ("Weight", wtC),
             ("Touchscreen", tC), ("IPS", iC), ("cpu_name", cpuC), ("gpu_brand", gC),
             ("SSD", sC), ("HDD", hC), ("os", oC)] := by
  refine ⟨?_, ?_, ?_, by simp [names]; decide, by simp [names]⟩
  · simp [dt_transform_features, clean_data, process_screen_resolution,
      process_screen_resolution_arg, process_memory, process_cpu, process_gpu,
      process_os, drop_id_column, drop_id_column_eval, dropColsE, removeCols,
      applyToCol, getCol, setCol, names, mkRawFrame, TARGET_COLUMN,
      schema_drop_columns, List.filter_cons,
      hRam, hWt, hT, hI, hS, hH, hCand, hCat, hG, hO]
  · simp [me_transform_features, clean_data, process_screen_resolution,
      process_screen_resolution_arg, process_memory, process_cpu, process_gpu,
      process_os, drop_id_column, drop_id_column_eval, dropColsE, removeCols,
      applyToCol, getCol, setCol, names, mkRawFrame, TARGET_COLUMN,
      schema_drop_columns, List.filter_cons,
      hRam, hWt, hT, hI, hS, hH, hCand, hCat, hG, hO]
  · intro n hn
    fin_cases hn <;> rfl

/-- Counterexample to claim C1 as stated: on a concrete valid raw frame the two
normalization paths produce feature batches whose column orders differ — the
training path emits `SSD`, `HDD` before `cpu_name`, `gpu_brand`, the evaluation
path after — so the batches are not identical. -/
theorem C1_counterexample :
    (dt_transform_features sampleRawFrame).toOption.map names ≠
      (me_transform_features sampleRawFrame).toOption.map names ∧
    (dt_transform_features sampleRawFrame).toOption.map names =
      some ["Company", "TypeName", "Ram", "Weight", "Touchscreen", "IPS",
            "SSD", "HDD", "cpu_name", "gpu_brand", "os"] ∧
    (me_transform_features sampleRawFrame).toOption.map names =
      some ["Company", "TypeName", "Ram", "Weight", "Touchscreen", "IPS",
            "cpu_name", "gpu_brand", "SSD", "HDD", "os"] := by decide

/-- Witness for C1 on the concrete sample raw frame: both paths succeed, with
the stated outputs. -/
theorem C1_witness :
    dt_transform_features sampleRawFrame =
      .ok [("Company", [Val.str ("Apple".toList)]), ("TypeName", [Val.str ("Ultrabook".toList)]),
           ("Ram", [Val.intv 8]), ("Weight", [Val.ratv 2]), ("Touchscreen", [Val.intv 1]),
           ("IPS", [Val.intv 1]), ("SSD", [Val.ratv 256]), ("HDD", [Val.ratv 0]),
           ("cpu_name", [Val.str ("Intel Core i5".toList)]),
           ("gpu_brand", [Val.str ("Intel".toList)]), ("os", [Val.str ("mac".toList)])] ∧
    me_transform_features sampleRawFrame =
      .ok [("Company", [Val.str ("Apple".toList)]), ("TypeName", [Val.str ("Ultrabook".toList)]),
           ("Ram", [Val.intv 8]), ("Weight", [Val.ratv 2]), ("Touchscreen", [Val.intv 1]),
           ("IPS", [Val.intv 1]), ("cpu_name", [Val.str ("Intel Core i5".toList)]),
           ("gpu_brand", [Val.str ("Intel".toList)]), ("SSD", [Val.ratv 256]),
           ("HDD", [Val.ratv 0]), ("os", [Val.str ("mac".toList)])] :=
  ⟨(C1_values_agree_order_differs
      [Val.intv 0] [Val.str ("Apple".toList)] [Val.str ("Ultrabook".toList)]
      [Val.str ("8GB".toList)] [Val.str ("2kg".toList)] [Val.str ("13.3".toList)]
      [Val.str ("IPS Touchscreen".toList)] [Val.str ("Intel Core i5 2.3GHz".toList)]
      [Val.str ("256GB SSD".toList)] [Val.str ("Intel Iris".toList)]
      [Val.str ("macOS".toList)] [Val.ratv 71379]
      [Val.intv 8] [Val.ratv 2] [Val.intv 1] [Val.intv 1] [Val.ratv 256] [Val.ratv 0]
      [Val.str ("Intel Core i5".toList)] [Val.str ("Intel Core i5".toList)]
      [Val.str ("Intel".toList)] [Val.str ("mac".toList)]
      (by decide) (by decide) (by decide) (by decide) (by decide) (by decide)
      (by decide) (by decide) (by decide) (by decide)).1,
   (C1_values_agree_order_differs
      [Val.intv 0] [Val.str ("Apple".toList)] [Val.str ("Ultrabook".toList)]
      [Val.str ("8GB".toList)] [Val.str ("2kg".toList)] [Val.str ("13.3".toList)]
      [Val.str ("IPS Touchscreen".toList)] [Val.str ("Intel Core i5 2.3GHz".toList)]
      [Val.str ("256GB SSD".toList)] [Val.str ("Intel Iris".toList)]
      [Val.str ("macOS".toList)] [Val.ratv 71379]
      [Val.intv 8] [Val.ratv 2] [Val.intv 1] [Val.intv 1] [Val.ratv 256] [Val.ratv 0]
      [Val.str ("Intel Core i5".toList)] [Val.str ("Intel Core i5".toList)]
      [Val.str ("Intel".toList)] [Val.str ("mac".toList)]
      (by decide) (by decide) (by decide) (by decide) (by decide) (by decide)
      (by decide) (by decide) (by decide) (by decide)).2.1⟩
